import Mathlib

/-!
Shallow embedding of the Xpring-JS transaction-submission core.

Sources embedded:
* `XpringClient` (legacy pipeline: `getBalance`, `send`, private `getFee`,
  private `getAccountInfo`) and its `XpringClientErrorMessages`;
* `FakeLegacyNetworkClientResponses` / `FakeLegacyNetworkClient` (the test
  backend with five configurable response slots);
* `LegacyGRPCNetworkClient` and `GRPCNetworkClient` (the promise adapters
  around a gRPC transport callback);
* `DefaultXpringClient` (non-legacy client: `getBalance`, `getFee`, and the
  unimplemented `send` / `getTransactionStatus` stubs) and its error messages.

Modelling conventions, applied uniformly:
* JavaScript promise rejection values and `Response<T> = T | Error` both
  become `Except Err T`, where `Err` wraps the error message.
* Protocol-buffer message types are not in the repository (generated code is
  an external collaborator).  They are modelled from the spec with
  absent-representable fields (`Option`), matching both the spec data model
  ("if the response lacks a fee field / a sequence number") and the client
  code's explicit `undefined` checks.
* Network and signer invocations are instrumented: each client operation
  returns its result together with the ordered list of collaborator calls it
  performed, so that "no backend operation is invoked" is a statement about
  the trace.
-/

/-- A JavaScript `Error` value, identified by its message. -/
structure Err where
  message : String
deriving DecidableEq

/-- Legacy `XRPAmount` message: a quantity of drops carried as a string
(the source writes `balance.setDrops("4000")`). -/
structure XRPAmount where
  drops : String
deriving DecidableEq

/-- Legacy `AccountInfo` message, per the spec shape
`AccountInfo{balance, sequence, flags}`; fields are absent-representable. -/
structure AccountInfo where
  balance : Option XRPAmount := none
  sequence : Option Nat := none
deriving DecidableEq

/-- Legacy `Fee` message wrapping an optional fee amount
(`fee.getAmount()` may be `undefined`). -/
structure Fee where
  amount : Option XRPAmount := none
deriving DecidableEq

/-- Legacy `SubmitSignedTransactionResponse` message. -/
structure SubmitSignedTransactionResponse where
  engineResult : String
  engineResultCode : Int
  engineResultMessage : String
  transactionBlob : String
deriving DecidableEq

/-- Legacy `LedgerSequence` message. -/
structure LedgerSequence where
  index : Nat
deriving DecidableEq

/-- Legacy `TransactionStatus` message. -/
structure TransactionStatus where
  validated : Bool
  transactionStatusCode : String
deriving DecidableEq

/-- Legacy `GetAccountInfoRequest` message: carries the queried address. -/
structure GetAccountInfoRequest where
  address : String
deriving DecidableEq

/-- Legacy `GetFeeRequest` message: carries no data. -/
structure GetFeeRequest where
deriving DecidableEq

/-- Legacy `GetLatestValidatedLedgerSequenceRequest` message: carries no data. -/
structure GetLatestValidatedLedgerSequenceRequest where
deriving DecidableEq

/-- Legacy `GetTransactionStatusRequest` message: carries the transaction hash. -/
structure GetTransactionStatusRequest where
  transactionHash : String
deriving DecidableEq

/-- Payment payload assembled by `XpringClient.send`
(`payment.setXrpAmount(amount); payment.setDestination(destination)`). -/
structure Payment where
  xrpAmount : XRPAmount
  destination : String
deriving DecidableEq

/-- Transaction assembled by `XpringClient.send`
(`setAccount`, `setFee`, `setSequence`, `setPayment`). -/
structure Transaction where
  account : String
  fee : XRPAmount
  sequence : Nat
  payment : Payment
deriving DecidableEq

/-- Modelled from the spec: `SignedTransaction` is the opaque signed artifact
the Signer produces from a `Transaction` and a wallet (the Signer and its
output type live in `xpring-common-js`, outside this repository). -/
structure SignedTransaction where
  transaction : Transaction
deriving DecidableEq

/-- Legacy `SubmitSignedTransactionRequest` message wrapping the signed artifact. -/
structure SubmitSignedTransactionRequest where
  signedTransaction : SignedTransaction
deriving DecidableEq

/-- A wallet, as `XpringClient.send` uses it: only `getAddress()` is consulted. -/
structure Wallet where
  address : String
deriving DecidableEq

/-- Outcome of the external `Signer.signTransaction` call as `send` observes
it: it may throw, or return `undefined`, or return a signed transaction. -/
inductive SignerOutcome where
  | threw (message : String)
  | returned (result : Option SignedTransaction)
deriving DecidableEq

/-- The external Signer collaborator, as a function the pipeline calls. -/
def SignerFn : Type := Transaction → Wallet → SignerOutcome

/-- The `NetworkClient` capability interface used by `XpringClient`:
account lookup, fee lookup, signed-transaction submission. -/
structure NetworkClient where
  getAccountInfo : GetAccountInfoRequest → Except Err AccountInfo
  getFee : GetFeeRequest → Except Err Fee
  submitSignedTransaction :
    SubmitSignedTransactionRequest → Except Err SubmitSignedTransactionResponse

/-- One collaborator invocation made by the legacy client, in call order. -/
inductive Event where
  | evGetFee
  | evGetAccountInfo (address : String)
  | evSign (transaction : Transaction)
  | evSubmit (request : SubmitSignedTransactionRequest)
deriving DecidableEq

/-- The kind of a collaborator invocation, with the transaction data erased. -/
inductive EventKind where
  | fee
  | acct
  | sign
  | submit
deriving DecidableEq

/-- Project an event to its kind. -/
def eventKind : Event → EventKind
  | Event.evGetFee => EventKind.fee
  | Event.evGetAccountInfo _ => EventKind.acct
  | Event.evSign _ => EventKind.sign
  | Event.evSubmit _ => EventKind.submit

/-- Error message `XpringClientErrorMessages.malformedResponse`. -/
def XpringClientErrorMessages.malformedResponse : String := "Malformed Response."

/-- Error message `XpringClientErrorMessages.signingFailure`. -/
def XpringClientErrorMessages.signingFailure : String :=
  "Unable to sign the transaction"

/-- The legacy `XpringClient`: holds the configured network client. -/
structure XpringClient where
  networkClient : NetworkClient

/-- Embeds the private `XpringClient.getAccountInfo`: build the request from
the address and forward to the network client. -/
def XpringClient.getAccountInfo (client : XpringClient) (address : String) :
    Except Err AccountInfo :=
  client.networkClient.getAccountInfo { address := address }

/-- Embeds the private `XpringClient.getFee`: call the network client, then
reject with the malformed-response error when `fee.getAmount()` is undefined. -/
def XpringClient.getFee (client : XpringClient) : Except Err XRPAmount :=
  match client.networkClient.getFee {} with
  | Except.error e => Except.error e
  | Except.ok fee =>
    match fee.amount with
    | none => Except.error ⟨XpringClientErrorMessages.malformedResponse⟩
    | some feeAmount => Except.ok feeAmount

/-- Embeds `XpringClient.getBalance`, instrumented with the list of network
calls made: fetch account info, then project the balance field, rejecting
with the malformed-response error when `accountInfo.getBalance()` is
undefined. -/
def XpringClient.getBalanceTraced (client : XpringClient) (address : String) :
    Except Err XRPAmount × List Event :=
  let events := [Event.evGetAccountInfo address]
  match client.getAccountInfo address with
  | Except.error e => (Except.error e, events)
  | Except.ok accountInfo =>
    match accountInfo.balance with
    | none => (Except.error ⟨XpringClientErrorMessages.malformedResponse⟩, events)
    | some balance => (Except.ok balance, events)

/-- Embeds the transaction assembly of `XpringClient.send` (source lines
building `payment` and `transaction`). -/
def assembledTransaction (sender : Wallet) (fee : XRPAmount) (sequence : Nat)
    (amount : XRPAmount) (destination : String) : Transaction :=
  { account := sender.address
    fee := fee
    sequence := sequence
    payment := { xrpAmount := amount, destination := destination } }

/-- Embeds `XpringClient.send`, instrumented with the ordered list of
collaborator calls: fetch fee (via the private `getFee`, which already
rejects a fee response lacking its amount), fetch account info for the
sender, reject when the sequence is undefined, assemble the transaction,
invoke the external Signer (wrapping a thrown error and rejecting an
undefined result), and finally submit the signed transaction. -/
def XpringClient.sendTraced (client : XpringClient) (signTransaction : SignerFn)
    (sender : Wallet) (amount : XRPAmount) (destination : String) :
    Except Err SubmitSignedTransactionResponse × List Event :=
  let events0 := [Event.evGetFee]
  match client.getFee with
  | Except.error e => (Except.error e, events0)
  | Except.ok fee =>
    let events1 := events0 ++ [Event.evGetAccountInfo sender.address]
    match client.getAccountInfo sender.address with
    | Except.error e => (Except.error e, events1)
    | Except.ok accountInfo =>
      match accountInfo.sequence with
      | none =>
        (Except.error ⟨XpringClientErrorMessages.malformedResponse⟩, events1)
      | some sequence =>
        let transaction := assembledTransaction sender fee sequence amount destination
        let events2 := events1 ++ [Event.evSign transaction]
        match signTransaction transaction sender with
        | SignerOutcome.threw msg =>
          (Except.error
            ⟨XpringClientErrorMessages.signingFailure ++ ". " ++ msg⟩, events2)
        | SignerOutcome.returned none =>
          (Except.error ⟨XpringClientErrorMessages.signingFailure⟩, events2)
        | SignerOutcome.returned (some signedTransaction) =>
          let request : SubmitSignedTransactionRequest :=
            { signedTransaction := signedTransaction }
          let events3 := events2 ++ [Event.evSubmit request]
          (client.networkClient.submitSignedTransaction request, events3)

/-- Uninstrumented `XpringClient.getBalance`: the result component of the
traced embedding. -/
def XpringClient.getBalance (client : XpringClient) (address : String) :
    Except Err XRPAmount :=
  (client.getBalanceTraced address).1

/-- Uninstrumented `XpringClient.send`: the result component of the traced
embedding. -/
def XpringClient.send (client : XpringClient) (signTransaction : SignerFn)
    (sender : Wallet) (amount : XRPAmount) (destination : String) :
    Except Err SubmitSignedTransactionResponse :=
  (client.sendTraced signTransaction sender amount destination).1

/-- Shared default error of the fake network client
(`FakeLegacyNetworkClientResponses.defaultError`). -/
def FakeLegacyNetworkClientResponses.defaultError : Err :=
  ⟨"fake network client failure"⟩

/-- Embeds `FakeLegacyNetworkClientResponses.defaultAccountInfoResponse`:
balance set to 4000 drops; no other field is set (in particular no
sequence number). -/
def FakeLegacyNetworkClientResponses.defaultAccountInfoResponse : AccountInfo :=
  { balance := some { drops := "4000" } }

/-- Embeds `FakeLegacyNetworkClientResponses.defaultFeeResponse`: amount set
to 10 drops. -/
def FakeLegacyNetworkClientResponses.defaultFeeResponse : Fee :=
  { amount := some { drops := "10" } }

/-- Embeds `FakeLegacyNetworkClientResponses.defaultSubmitSignedTransactionResponse`. -/
def FakeLegacyNetworkClientResponses.defaultSubmitSignedTransactionResponse :
    SubmitSignedTransactionResponse :=
  { engineResult := "tesSUCCESS"
    engineResultCode := 0
    engineResultMessage :=
      "The transaction was applied. Only final in a validated ledger."
    transactionBlob := "DEADBEEF" }

/-- Embeds `FakeLegacyNetworkClientResponses.defaultLedgerSequenceResponse`:
index 12. -/
def FakeLegacyNetworkClientResponses.defaultLedgerSequenceResponse : LedgerSequence :=
  { index := 12 }

/-- Embeds `FakeLegacyNetworkClientResponses.defaultTransactionStatusResponse`. -/
def FakeLegacyNetworkClientResponses.defaultTransactionStatusResponse :
    TransactionStatus :=
  { validated := true, transactionStatusCode := "tesSUCCESS" }

/-- Embeds `FakeLegacyNetworkClientResponses`: five independently
configurable response-or-error slots, each defaulting to the canned success
value above. -/
structure FakeLegacyNetworkClientResponses where
  getAccountInfoResponse : Except Err AccountInfo :=
    Except.ok FakeLegacyNetworkClientResponses.defaultAccountInfoResponse
  getFeeResponse : Except Err Fee :=
    Except.ok FakeLegacyNetworkClientResponses.defaultFeeResponse
  submitSignedTransactionResponse : Except Err SubmitSignedTransactionResponse :=
    Except.ok FakeLegacyNetworkClientResponses.defaultSubmitSignedTransactionResponse
  getLatestValidatedLedgerSequenceResponse : Except Err LedgerSequence :=
    Except.ok FakeLegacyNetworkClientResponses.defaultLedgerSequenceResponse
  getTransactionStatusResponse : Except Err TransactionStatus :=
    Except.ok FakeLegacyNetworkClientResponses.defaultTransactionStatusResponse

/-- Embeds `FakeLegacyNetworkClientResponses.defaultSuccessfulResponses`
(all slots at their defaults). -/
def FakeLegacyNetworkClientResponses.defaultSuccessfulResponses :
    FakeLegacyNetworkClientResponses := {}

/-- Embeds `FakeLegacyNetworkClientResponses.defaultErrorResponses` (every
slot set to the shared default error). -/
def FakeLegacyNetworkClientResponses.defaultErrorResponses :
    FakeLegacyNetworkClientResponses :=
  { getAccountInfoResponse := Except.error FakeLegacyNetworkClientResponses.defaultError
    getFeeResponse := Except.error FakeLegacyNetworkClientResponses.defaultError
    submitSignedTransactionResponse :=
      Except.error FakeLegacyNetworkClientResponses.defaultError
    getLatestValidatedLedgerSequenceResponse :=
      Except.error FakeLegacyNetworkClientResponses.defaultError
    getTransactionStatusResponse :=
      Except.error FakeLegacyNetworkClientResponses.defaultError }

/-- Embeds `FakeLegacyNetworkClient`: holds its configured responses. -/
structure FakeLegacyNetworkClient where
  responses : FakeLegacyNetworkClientResponses :=
    FakeLegacyNetworkClientResponses.defaultSuccessfulResponses

/-- Embeds `FakeLegacyNetworkClient.getAccountInfo`: return the configured
slot (reject if an error is configured, resolve otherwise); the request is
ignored. -/
def FakeLegacyNetworkClient.getAccountInfo (client : FakeLegacyNetworkClient)
    (_accountInfoRequest : GetAccountInfoRequest) : Except Err AccountInfo :=
  client.responses.getAccountInfoResponse

/-- Embeds `FakeLegacyNetworkClient.getFee`. -/
def FakeLegacyNetworkClient.getFee (client : FakeLegacyNetworkClient)
    (_feeRequest : GetFeeRequest) : Except Err Fee :=
  client.responses.getFeeResponse

/-- Embeds `FakeLegacyNetworkClient.submitSignedTransaction`. -/
def FakeLegacyNetworkClient.submitSignedTransaction (client : FakeLegacyNetworkClient)
    (_request : SubmitSignedTransactionRequest) :
    Except Err SubmitSignedTransactionResponse :=
  client.responses.submitSignedTransactionResponse

/-- Embeds `FakeLegacyNetworkClient.getLatestValidatedLedgerSequence`. -/
def FakeLegacyNetworkClient.getLatestValidatedLedgerSequence
    (client : FakeLegacyNetworkClient)
    (_request : GetLatestValidatedLedgerSequenceRequest) : Except Err LedgerSequence :=
  client.responses.getLatestValidatedLedgerSequenceResponse

/-- Embeds `FakeLegacyNetworkClient.getTransactionStatus`. -/
def FakeLegacyNetworkClient.getTransactionStatus (client : FakeLegacyNetworkClient)
    (_request : GetTransactionStatusRequest) : Except Err TransactionStatus :=
  client.responses.getTransactionStatusResponse

/-- View the fake as the `NetworkClient` capability the legacy `XpringClient`
consumes (interface satisfaction, as in the source where the fake implements
the network-client interface). -/
def FakeLegacyNetworkClient.toNetworkClient (client : FakeLegacyNetworkClient) :
    NetworkClient :=
  { getAccountInfo := client.getAccountInfo
    getFee := client.getFee
    submitSignedTransaction := client.submitSignedTransaction }

/-- An `XpringClient` configured with a fake backend built from the given
responses. -/
def xpringClientWithFake (responses : FakeLegacyNetworkClientResponses) :
    XpringClient :=
  { networkClient := FakeLegacyNetworkClient.toNetworkClient { responses := responses } }

/-- Outcome of one promise-wrapped gRPC call: `reject(error)` carries the
transport error, which may itself be null when the transport delivered a
null response without an error; `resolve(response)` carries the typed
response. -/
inductive CallOutcome (T : Type) where
  | rejected (error : Option Err)
  | resolved (response : T)
deriving DecidableEq

/-- Embeds the callback adapter shared by every concrete backend operation:
`if (error != null || response == null) { reject(error); return; }
resolve(response);`. -/
def grpcCallbackAdapt {T : Type} (error : Option Err) (response : Option T) :
    CallOutcome T :=
  match error, response with
  | some e, _ => CallOutcome.rejected (some e)
  | none, none => CallOutcome.rejected none
  | none, some r => CallOutcome.resolved r

/-- The legacy transport (`XRPLedgerAPIClient`): each operation delivers a
callback pair (error, response), either of which may be null. -/
structure XRPLedgerAPIClient where
  getAccountInfo : GetAccountInfoRequest → Option Err × Option AccountInfo
  getFee : GetFeeRequest → Option Err × Option Fee
  submitSignedTransaction :
    SubmitSignedTransactionRequest → Option Err × Option SubmitSignedTransactionResponse
  getLatestValidatedLedgerSequence :
    GetLatestValidatedLedgerSequenceRequest → Option Err × Option LedgerSequence
  getTransactionStatus :
    GetTransactionStatusRequest → Option Err × Option TransactionStatus

/-- Embeds `LegacyGRPCNetworkClient`: wraps one transport client. -/
structure LegacyGRPCNetworkClient where
  grpcClient : XRPLedgerAPIClient

/-- Embeds `LegacyGRPCNetworkClient.getAccountInfo`: adapt the transport
callback into the promise contract. -/
def LegacyGRPCNetworkClient.getAccountInfo (client : LegacyGRPCNetworkClient)
    (getAccountInfoRequest : GetAccountInfoRequest) : CallOutcome AccountInfo :=
  grpcCallbackAdapt (client.grpcClient.getAccountInfo getAccountInfoRequest).1
    (client.grpcClient.getAccountInfo getAccountInfoRequest).2

/-- Embeds `LegacyGRPCNetworkClient.getFee`. -/
def LegacyGRPCNetworkClient.getFee (client : LegacyGRPCNetworkClient)
    (getFeeRequest : GetFeeRequest) : CallOutcome Fee :=
  grpcCallbackAdapt (client.grpcClient.getFee getFeeRequest).1
    (client.grpcClient.getFee getFeeRequest).2

/-- Embeds `LegacyGRPCNetworkClient.submitSignedTransaction` (the source uses
the strict comparisons `error !== null || response === null`, which coincide
with the loose ones under the `Option` model). -/
def LegacyGRPCNetworkClient.submitSignedTransaction (client : LegacyGRPCNetworkClient)
    (request : SubmitSignedTransactionRequest) :
    CallOutcome SubmitSignedTransactionResponse :=
  grpcCallbackAdapt (client.grpcClient.submitSignedTransaction request).1
    (client.grpcClient.submitSignedTransaction request).2

/-- Embeds `LegacyGRPCNetworkClient.getLatestValidatedLedgerSequence`. -/
def LegacyGRPCNetworkClient.getLatestValidatedLedgerSequence
    (client : LegacyGRPCNetworkClient)
    (request : GetLatestValidatedLedgerSequenceRequest) : CallOutcome LedgerSequence :=
  grpcCallbackAdapt (client.grpcClient.getLatestValidatedLedgerSequence request).1
    (client.grpcClient.getLatestValidatedLedgerSequence request).2

/-- Embeds `LegacyGRPCNetworkClient.getTransactionStatus`. -/
def LegacyGRPCNetworkClient.getTransactionStatus (client : LegacyGRPCNetworkClient)
    (request : GetTransactionStatusRequest) : CallOutcome TransactionStatus :=
  grpcCallbackAdapt (client.grpcClient.getTransactionStatus request).1
    (client.grpcClient.getTransactionStatus request).2

/-- Request type of the non-legacy transport account lookup
(`AccountInfoRequest` from the rippled proto). -/
structure AccountInfoRequest where
  address : String
deriving DecidableEq

/-- Injection request of the non-legacy transport. -/
structure InjectionRequest where
  payload : String
deriving DecidableEq

/-- Injection response of the non-legacy transport. -/
structure InjectionResponse where
  payload : String
deriving DecidableEq

/-- The non-legacy transport (`RippledClient`) used by `GRPCNetworkClient`. -/
structure RippledClient where
  getAccountInfo : AccountInfoRequest → Option Err × Option AccountInfo
  inject : InjectionRequest → Option Err × Option InjectionResponse

/-- Embeds `GRPCNetworkClient`: wraps one rippled transport client. -/
structure GRPCNetworkClient where
  grpcClient : RippledClient

/-- Embeds `GRPCNetworkClient.getAccountInfo`: same callback adapter as the
legacy backend. -/
def GRPCNetworkClient.getAccountInfo (client : GRPCNetworkClient)
    (accountInfoRequest : AccountInfoRequest) : CallOutcome AccountInfo :=
  grpcCallbackAdapt (client.grpcClient.getAccountInfo accountInfoRequest).1
    (client.grpcClient.getAccountInfo accountInfoRequest).2

/-- Embeds `GRPCNetworkClient.injectOperation`. -/
def GRPCNetworkClient.injectOperation (client : GRPCNetworkClient)
    (injectionRequest : InjectionRequest) : CallOutcome InjectionResponse :=
  grpcCallbackAdapt (client.grpcClient.inject injectionRequest).1
    (client.grpcClient.inject injectionRequest).2

/-- The contract a promise-wrapped backend operation satisfies: it rejects
with the transport error exactly when the transport reported an error or the
response body was missing, and a resolution always carries the actual
delivered payload (never a stand-in for a missing one). -/
def OpContract {T : Type} (transport : Option Err × Option T)
    (outcome : CallOutcome T) : Prop :=
  (outcome = CallOutcome.rejected transport.1 ↔
    (transport.1 ≠ none ∨ transport.2 = none)) ∧
  (∀ x : T, outcome = CallOutcome.resolved x →
    transport.2 = some x ∧ transport.1 = none) ∧
  (∀ x : T, transport.1 = none → transport.2 = some x →
    outcome = CallOutcome.resolved x)

/-- Modelled from the spec: the `AccountAddress` message of the non-legacy
rpc protocol (`account.setAddress(address)`). -/
structure AccountAddress where
  address : String
deriving DecidableEq

/-- Non-legacy `GetAccountInfoRequest` (rpc/v1): carries the queried account. -/
structure RpcGetAccountInfoRequest where
  account : AccountAddress
deriving DecidableEq

/-- Modelled from the spec: `AccountData` of the non-legacy protocol, with an
absent-representable numeric balance in drops (the spec shape is
`AccountInfo{balance, sequence, flags}` with `Amount` a non-negative
integer; the generated message type is outside this repository). -/
structure AccountData where
  balance : Option Nat := none
deriving DecidableEq

/-- Non-legacy `GetAccountInfoResponse`: wraps optional account data. -/
structure GetAccountInfoResponse where
  accountData : Option AccountData := none
deriving DecidableEq

/-- Non-legacy `GetFeeRequest` (rpc/v1): carries no data. -/
structure RpcGetFeeRequest where
deriving DecidableEq

/-- Modelled from the spec: the fee object of the non-legacy `GetFeeResponse`
(`getFeeResponse.getDrops()`), whose minimum fee is an absent-representable
non-negative integral `Amount` per the spec shape `Fee{minimumFee: Amount}`. -/
structure FeeDrops where
  minimumFee : Option Nat := none
deriving DecidableEq

/-- Non-legacy `GetFeeResponse`: wraps the optional fee object. -/
structure GetFeeResponse where
  drops : Option FeeDrops := none
deriving DecidableEq

/-- Modelled from the spec: the transaction-status value of the non-legacy
client (its type lives in `src/transaction-status`, not under the sources
given); only needed as the never-produced success type of the
unimplemented stub. -/
inductive XpringTransactionStatus where
  | pending
  | validatedSuccess
  | validatedFailure
deriving DecidableEq

/-- The non-legacy `NetworkClient` interface consumed by
`DefaultXpringClient`: account lookup and fee lookup over rpc/v1 shapes. -/
structure RpcNetworkClient where
  getAccountInfo : RpcGetAccountInfoRequest → Except Err GetAccountInfoResponse
  getFee : RpcGetFeeRequest → Except Err GetFeeResponse

/-- One backend invocation made by the non-legacy client. -/
inductive RpcEvent where
  | evGetAccountInfo (address : String)
  | evGetFee
deriving DecidableEq

/-- Error message `XpringClientErrorMessages.malformedResponse` of the
non-legacy client (the source class shares its name with the legacy one). -/
def DefaultXpringClientErrorMessages.malformedResponse : String :=
  "Malformed Response."

/-- Error message `XpringClientErrorMessages.unimplemented` of the
non-legacy client. -/
def DefaultXpringClientErrorMessages.unimplemented : String := "Unimplemented."

/-- Error message `XpringClientErrorMessages.xAddressRequired` of the
non-legacy client. -/
def DefaultXpringClientErrorMessages.xAddressRequired : String :=
  "Please use the X-Address format. See: https://xrpaddress.info/."

/-- JavaScript truthiness of an absent-representable number: `!x` holds when
the field is absent or zero. -/
def jsFalsyNat : Option Nat → Bool
  | none => true
  | some n => n == 0

/-- The non-legacy `DefaultXpringClient`: holds the configured network
client; the external `Utils.isValidXAddress` collaborator (from
`xpring-common-js`, outside this repository) is passed as a function. -/
structure DefaultXpringClient where
  networkClient : RpcNetworkClient

/-- Embeds `DefaultXpringClient.getBalance`, instrumented with the list of
backend calls: reject immediately with the X-Address-required error if the
address fails the format check (before any backend call); otherwise fetch
account info, then reject with the malformed-response error if
`!accountData` or `!balance`, else return the balance. -/
def DefaultXpringClient.getBalance (isValidXAddress : String → Bool)
    (client : DefaultXpringClient) (address : String) :
    Except Err Nat × List RpcEvent :=
  if !(isValidXAddress address) then
    (Except.error ⟨DefaultXpringClientErrorMessages.xAddressRequired⟩, [])
  else
    let events := [RpcEvent.evGetAccountInfo address]
    match client.networkClient.getAccountInfo { account := { address := address } } with
    | Except.error e => (Except.error e, events)
    | Except.ok accountInfo =>
      match accountInfo.accountData with
      | none =>
        (Except.error ⟨DefaultXpringClientErrorMessages.malformedResponse⟩, events)
      | some accountData =>
        if jsFalsyNat accountData.balance then
          (Except.error ⟨DefaultXpringClientErrorMessages.malformedResponse⟩, events)
        else
          (Except.ok (accountData.balance.getD 0), events)

/-- Embeds the private `DefaultXpringClient.getFee`: call the backend, then
reject with the malformed-response error if `!fee` (the drops object is
absent) or `!minimumFee` (the minimum fee is absent or zero), else return
the minimum fee. -/
def DefaultXpringClient.getFee (client : DefaultXpringClient) :
    Except Err Nat :=
  match client.networkClient.getFee {} with
  | Except.error e => Except.error e
  | Except.ok getFeeResponse =>
    match getFeeResponse.drops with
    | none => Except.error ⟨DefaultXpringClientErrorMessages.malformedResponse⟩
    | some fee =>
      if jsFalsyNat fee.minimumFee then
        Except.error ⟨DefaultXpringClientErrorMessages.malformedResponse⟩
      else
        Except.ok (fee.minimumFee.getD 0)

/-- Embeds `DefaultXpringClient.getTransactionStatus`: an unimplemented stub
that throws before touching any collaborator. -/
def DefaultXpringClient.getTransactionStatus (_client : DefaultXpringClient)
    (_transactionHash : String) :
    Except Err XpringTransactionStatus × List RpcEvent :=
  (Except.error ⟨DefaultXpringClientErrorMessages.unimplemented⟩, [])

/-- Embeds `DefaultXpringClient.send`: an unimplemented stub that throws
before touching the backend or any signer. -/
def DefaultXpringClient.send (_client : DefaultXpringClient) (_amount : Nat)
    (_destination : String) (_sender : Wallet) :
    Except Err String × List RpcEvent :=
  (Except.error ⟨DefaultXpringClientErrorMessages.unimplemented⟩, [])

/-- Embeds `DefaultXpringClient.getLastValidatedLedgerSequence`: an
unimplemented stub. -/
def DefaultXpringClient.getLastValidatedLedgerSequence
    (_client : DefaultXpringClient) : Except Err Nat × List RpcEvent :=
  (Except.error ⟨DefaultXpringClientErrorMessages.unimplemented⟩, [])

/-- A signer that always succeeds, wrapping the transaction it was given
into the opaque signed artifact. -/
def succeedingSigner : SignerFn := fun transaction _ =>
  SignerOutcome.returned (some { transaction := transaction })

/-- A signer with a fixed outcome, independent of its input. -/
def constSigner (outcome : SignerOutcome) : SignerFn := fun _ _ => outcome

/-- Fake responses identical to the defaults except that the account-info
response also carries a sequence number (12). -/
def responsesWithSequence : FakeLegacyNetworkClientResponses :=
  { getAccountInfoResponse :=
      Except.ok { balance := some { drops := "4000" }, sequence := some 12 } }

/-- Fake responses identical to the defaults except that the fee response
lacks its amount field. -/
def responsesWithEmptyFee : FakeLegacyNetworkClientResponses :=
  { getFeeResponse := Except.ok { amount := none } }

/-- A non-legacy backend with fixed responses, independent of the request. -/
def constRpcNetworkClient (accountInfoResponse : Except Err GetAccountInfoResponse)
    (feeResponse : Except Err GetFeeResponse) : RpcNetworkClient :=
  { getAccountInfo := fun _ => accountInfoResponse
    getFee := fun _ => feeResponse }

/-- A legacy transport fixture: account lookup delivers a payload with no
error, fee lookup reports a transport error, submission delivers neither an
error nor a payload. -/
def transportFixture : XRPLedgerAPIClient :=
  { getAccountInfo := fun _ =>
      (none, some { balance := some { drops := "7" }, sequence := some 3 })
    getFee := fun _ => (some ⟨"boom"⟩, none)
    submitSignedTransaction := fun _ => (none, none)
    getLatestValidatedLedgerSequence := fun _ => (none, some { index := 9 })
    getTransactionStatus := fun _ => (some ⟨"boom"⟩, none) }

/-- Claim C10: for every input, the non-legacy `DefaultXpringClient.send` and
`DefaultXpringClient.getTransactionStatus` unconditionally fail with the
unimplemented error (message "Unimplemented."), performing no backend call
and no signing (their collaborator-call trace is empty). -/
theorem default_client_stubs_unimplemented (client : DefaultXpringClient)
    (amount : Nat) (destination : String) (sender : Wallet)
    (transactionHash : String) :
    client.send amount destination sender =
      (Except.error ⟨DefaultXpringClientErrorMessages.unimplemented⟩, []) ∧
    client.getTransactionStatus transactionHash =
      (Except.error ⟨DefaultXpringClientErrorMessages.unimplemented⟩, []) ∧
    (client.send amount destination sender).1 = Except.error ⟨"Unimplemented."⟩ ∧
    (client.getTransactionStatus transactionHash).1 =
      Except.error ⟨"Unimplemented."⟩ :=
  ⟨rfl, rfl, rfl, rfl⟩

/-- Claim C7: with the all-error preset every public legacy client operation
(`getBalance`, `send`) and every fake status query fails with exactly the
shared configured default error, propagated unchanged; and each fake
operation returns exactly the value configured in its slot (the success
value when one is configured, the configured error otherwise). -/
theorem fake_all_error_preset_and_configured_slots
    (responses : FakeLegacyNetworkClientResponses)
    (r1 : GetAccountInfoRequest) (r2 : GetFeeRequest)
    (r3 : SubmitSignedTransactionRequest)
    (r4 : GetLatestValidatedLedgerSequenceRequest)
    (r5 : GetTransactionStatusRequest)
    (signTransaction : SignerFn) (sender : Wallet) (amount : XRPAmount)
    (address destination : String) :
    FakeLegacyNetworkClient.getAccountInfo { responses := responses } r1 =
      responses.getAccountInfoResponse ∧
    FakeLegacyNetworkClient.getFee { responses := responses } r2 =
      responses.getFeeResponse ∧
    FakeLegacyNetworkClient.submitSignedTransaction { responses := responses } r3 =
      responses.submitSignedTransactionResponse ∧
    FakeLegacyNetworkClient.getLatestValidatedLedgerSequence { responses := responses } r4 =
      responses.getLatestValidatedLedgerSequenceResponse ∧
    FakeLegacyNetworkClient.getTransactionStatus { responses := responses } r5 =
      responses.getTransactionStatusResponse ∧
    XpringClient.getBalance
        (xpringClientWithFake FakeLegacyNetworkClientResponses.defaultErrorResponses)
        address =
      Except.error FakeLegacyNetworkClientResponses.defaultError ∧
    XpringClient.send
        (xpringClientWithFake FakeLegacyNetworkClientResponses.defaultErrorResponses)
        signTransaction sender amount destination =
      Except.error FakeLegacyNetworkClientResponses.defaultError ∧
    FakeLegacyNetworkClient.getLatestValidatedLedgerSequence
        { responses := FakeLegacyNetworkClientResponses.defaultErrorResponses } r4 =
      Except.error FakeLegacyNetworkClientResponses.defaultError ∧
    FakeLegacyNetworkClient.getTransactionStatus
        { responses := FakeLegacyNetworkClientResponses.defaultErrorResponses } r5 =
      Except.error FakeLegacyNetworkClientResponses.defaultError :=
  ⟨rfl, rfl, rfl, rfl, rfl, rfl, rfl, rfl, rfl⟩

/-- Claim C5: for every address, `XpringClient.getBalance` against a backend
whose account-info slot succeeds returns exactly the balance field of the
configured `AccountInfo` (so the default configured balance of 4000 drops is
returned as 4000 drops), and fails with the malformed-response error when
the balance field is absent. -/
theorem getBalance_projects_configured_balance (address : String)
    (accountInfo : AccountInfo) :
    XpringClient.getBalance
        (xpringClientWithFake { getAccountInfoResponse := Except.ok accountInfo })
        address =
      (match accountInfo.balance with
       | some balance => Except.ok balance
       | none => Except.error ⟨XpringClientErrorMessages.malformedResponse⟩) ∧
    XpringClient.getBalance
        (xpringClientWithFake
          FakeLegacyNetworkClientResponses.defaultSuccessfulResponses)
        address =
      Except.ok { drops := "4000" } := by
  constructor
  · obtain ⟨balance, sequence⟩ := accountInfo
    cases balance <;> rfl
  · rfl

/-- Claim C2 (amended): in the non-legacy `DefaultXpringClient`, for every
address that fails the address-format validity check, `getBalance` fails
with the X-Address-required error before any backend operation is invoked
(empty backend-call trace); the legacy `XpringClient` performs no address
validation at all (see the counterexample). -/
theorem getBalance_invalid_address_rejects_before_backend
    (isValidXAddress : String → Bool) (client : DefaultXpringClient)
    (address : String) (h : isValidXAddress address = false) :
    DefaultXpringClient.getBalance isValidXAddress client address =
      (Except.error ⟨DefaultXpringClientErrorMessages.xAddressRequired⟩, []) := by
  unfold DefaultXpringClient.getBalance
  rw [h]
  rfl

/-- Witness for claim C2 (amended): with a checker rejecting the address
"not-an-x-address", `getBalance` rejects with the X-Address-required error
and makes no backend call, even against a backend configured to answer. -/
theorem getBalance_invalid_address_rejects_before_backend_witness :
    DefaultXpringClient.getBalance (fun _ => false)
        { networkClient :=
            constRpcNetworkClient
              (Except.ok { accountData := some { balance := some 4000 } })
              (Except.ok { drops := some { minimumFee := some 10 } }) }
        "not-an-x-address" =
      (Except.error ⟨DefaultXpringClientErrorMessages.xAddressRequired⟩, []) :=
  getBalance_invalid_address_rejects_before_backend (fun _ => false) _
    "not-an-x-address" rfl

/-- Counterexample to claim C2 as stated: the legacy `XpringClient.send`
consults no address-format check at all.  For the checker that rejects every
address, the sender/destination address "rSender" fails the check, yet
`send` against the default fake backend still performs two backend
operations (fee lookup and account-info lookup), and its failure is the
malformed-response error, not an invalid-address error. -/
theorem send_skips_address_validation_counterexample :
    (fun _ : String => false) "rSender" = false ∧
    (XpringClient.sendTraced
        (xpringClientWithFake
          FakeLegacyNetworkClientResponses.defaultSuccessfulResponses)
        succeedingSigner { address := "rSender" } { drops := "1" } "rSender").2 =
      [Event.evGetFee, Event.evGetAccountInfo "rSender"] ∧
    (XpringClient.sendTraced
        (xpringClientWithFake
          FakeLegacyNetworkClientResponses.defaultSuccessfulResponses)
        succeedingSigner { address := "rSender" } { drops := "1" } "rSender").1 ≠
      Except.error ⟨DefaultXpringClientErrorMessages.xAddressRequired⟩ ∧
    (XpringClient.sendTraced
        (xpringClientWithFake
          FakeLegacyNetworkClientResponses.defaultSuccessfulResponses)
        succeedingSigner { address := "rSender" } { drops := "1" } "rSender").1 =
      Except.error ⟨XpringClientErrorMessages.malformedResponse⟩ := by
  refine ⟨rfl, rfl, ?_, rfl⟩
  intro h
  injection h with h1
  injection h1 with h2
  exact absurd h2 (by decide)

/-- Lemma: the shared gRPC callback adapter satisfies the backend operation
contract for any transport outcome. -/
theorem grpcCallbackAdapt_contract {T : Type} (p : Option Err × Option T) :
    OpContract p (grpcCallbackAdapt p.1 p.2) := by
  obtain ⟨e, r⟩ := p
  cases e <;> cases r <;>
    simp [OpContract, grpcCallbackAdapt]

/-- Claim C6: each concrete backend operation (all five legacy
`LegacyGRPCNetworkClient` operations and both `GRPCNetworkClient`
operations) fails exactly when the transport reports an error or the
response body is missing, in that case rejecting with the transport error;
otherwise it resolves with exactly the typed response the transport
delivered — a missing payload on a successful call is never surfaced as a
success. -/
theorem backend_operations_contract (legacyClient : LegacyGRPCNetworkClient)
    (client : GRPCNetworkClient) (r1 : GetAccountInfoRequest)
    (r2 : GetFeeRequest) (r3 : SubmitSignedTransactionRequest)
    (r4 : GetLatestValidatedLedgerSequenceRequest)
    (r5 : GetTransactionStatusRequest) (r6 : AccountInfoRequest)
    (r7 : InjectionRequest) :
    OpContract (legacyClient.grpcClient.getAccountInfo r1)
      (legacyClient.getAccountInfo r1) ∧
    OpContract (legacyClient.grpcClient.getFee r2) (legacyClient.getFee r2) ∧
    OpContract (legacyClient.grpcClient.submitSignedTransaction r3)
      (legacyClient.submitSignedTransaction r3) ∧
    OpContract (legacyClient.grpcClient.getLatestValidatedLedgerSequence r4)
      (legacyClient.getLatestValidatedLedgerSequence r4) ∧
    OpContract (legacyClient.grpcClient.getTransactionStatus r5)
      (legacyClient.getTransactionStatus r5) ∧
    OpContract (client.grpcClient.getAccountInfo r6) (client.getAccountInfo r6) ∧
    OpContract (client.grpcClient.inject r7) (client.injectOperation r7) :=
  ⟨grpcCallbackAdapt_contract _, grpcCallbackAdapt_contract _,
   grpcCallbackAdapt_contract _, grpcCallbackAdapt_contract _,
   grpcCallbackAdapt_contract _, grpcCallbackAdapt_contract _,
   grpcCallbackAdapt_contract _⟩

/-- Witness for claim C6: on a concrete transport, the account-info
operation (payload delivered, no error) resolves with exactly that payload,
and the fee operation (transport error reported) rejects with that error. -/
theorem backend_operations_contract_witness :
    LegacyGRPCNetworkClient.getAccountInfo { grpcClient := transportFixture }
        { address := "rAccount" } =
      CallOutcome.resolved { balance := some { drops := "7" }, sequence := some 3 } ∧
    LegacyGRPCNetworkClient.getFee { grpcClient := transportFixture } {} =
      CallOutcome.rejected (some ⟨"boom"⟩) := by
  constructor
  · exact (backend_operations_contract { grpcClient := transportFixture }
      { grpcClient :=
          { getAccountInfo := fun _ => (none, none)
            inject := fun _ => (none, none) } }
      { address := "rAccount" } {} { signedTransaction := { transaction :=
        { account := "a", fee := { drops := "1" }, sequence := 0,
          payment := { xrpAmount := { drops := "1" }, destination := "d" } } } }
      {} { transactionHash := "h" } { address := "rAccount" }
      { payload := "p" }).1.2.2 _ rfl rfl
  · exact (backend_operations_contract { grpcClient := transportFixture }
      { grpcClient :=
          { getAccountInfo := fun _ => (none, none)
            inject := fun _ => (none, none) } }
      { address := "rAccount" } {} { signedTransaction := { transaction :=
        { account := "a", fee := { drops := "1" }, sequence := 0,
          payment := { xrpAmount := { drops := "1" }, destination := "d" } } } }
      {} { transactionHash := "h" } { address := "rAccount" }
      { payload := "p" }).2.1.1.mpr (Or.inr rfl)

/-- Counterexample to claim C1 as stated: with the fake backend holding the
default all-success responses, `send` does not resolve with the default
submission result at all — the default account-info response carries no
sequence number, so `send` rejects with the malformed-response error before
signing (concrete input: sender "rSender", amount 1 drop, destination "X"). -/
theorem send_default_responses_counterexample :
    XpringClient.send
        (xpringClientWithFake
          FakeLegacyNetworkClientResponses.defaultSuccessfulResponses)
        succeedingSigner { address := "rSender" } { drops := "1" } "X" =
      Except.error ⟨XpringClientErrorMessages.malformedResponse⟩ ∧
    XpringClient.send
        (xpringClientWithFake
          FakeLegacyNetworkClientResponses.defaultSuccessfulResponses)
        succeedingSigner { address := "rSender" } { drops := "1" } "X" ≠
      Except.ok
        FakeLegacyNetworkClientResponses.defaultSubmitSignedTransactionResponse := by
  refine ⟨rfl, ?_⟩
  intro h
  exact Except.noConfusion h

/-- Claim C1 (amended): with the fake defaults plus an account-info response
that also carries a sequence number (12), and any signer that returns a
result on the assembled transaction, `send` resolves with the default
submission result (engineResult "tesSUCCESS", blob "DEADBEEF"), and the
Transaction passed to the Signer carries fee = 10 drops and sequence = 12;
with the pure defaults `send` instead fails (see the counterexample),
because the default account-info response sets no sequence number. -/
theorem send_with_sequenced_defaults_succeeds (signTransaction : SignerFn)
    (sender : Wallet) (amount : XRPAmount) (destination : String)
    (signedTransaction : SignedTransaction)
    (hSign : signTransaction
        (assembledTransaction sender { drops := "10" } 12 amount destination)
        sender = SignerOutcome.returned (some signedTransaction)) :
    XpringClient.sendTraced (xpringClientWithFake responsesWithSequence)
        signTransaction sender amount destination =
      (Except.ok
        FakeLegacyNetworkClientResponses.defaultSubmitSignedTransactionResponse,
       [Event.evGetFee, Event.evGetAccountInfo sender.address,
        Event.evSign
          (assembledTransaction sender { drops := "10" } 12 amount destination),
        Event.evSubmit { signedTransaction := signedTransaction }]) ∧
    (assembledTransaction sender { drops := "10" } 12 amount destination).fee =
      { drops := "10" } ∧
    (assembledTransaction sender { drops := "10" } 12 amount destination).sequence =
      12 ∧
    FakeLegacyNetworkClientResponses.defaultSubmitSignedTransactionResponse.engineResult =
      "tesSUCCESS" ∧
    FakeLegacyNetworkClientResponses.defaultSubmitSignedTransactionResponse.transactionBlob =
      "DEADBEEF" := by
  refine ⟨?_, rfl, rfl, rfl, rfl⟩
  simp only [XpringClient.sendTraced, XpringClient.getFee,
    XpringClient.getAccountInfo, xpringClientWithFake,
    FakeLegacyNetworkClient.toNetworkClient, FakeLegacyNetworkClient.getFee,
    FakeLegacyNetworkClient.getAccountInfo,
    FakeLegacyNetworkClient.submitSignedTransaction, responsesWithSequence,
    FakeLegacyNetworkClientResponses.defaultFeeResponse, hSign]
  rfl

/-- Witness for claim C1 (amended): concrete run with the always-succeeding
signer; the pipeline resolves with the default submission result and signs a
transaction carrying fee 10 drops and sequence 12. -/
theorem send_with_sequenced_defaults_succeeds_witness :
    XpringClient.sendTraced (xpringClientWithFake responsesWithSequence)
        succeedingSigner { address := "rSender" } { drops := "1" } "X" =
      (Except.ok
        FakeLegacyNetworkClientResponses.defaultSubmitSignedTransactionResponse,
       [Event.evGetFee, Event.evGetAccountInfo "rSender",
        Event.evSign
          (assembledTransaction { address := "rSender" } { drops := "10" } 12
            { drops := "1" } "X"),
        Event.evSubmit { signedTransaction := { transaction :=
          (assembledTransaction { address := "rSender" } { drops := "10" } 12
            { drops := "1" } "X") } }]) ∧
    (assembledTransaction { address := "rSender" } { drops := "10" } 12
        { drops := "1" } "X").fee = { drops := "10" } ∧
    (assembledTransaction { address := "rSender" } { drops := "10" } 12
        { drops := "1" } "X").sequence = 12 ∧
    FakeLegacyNetworkClientResponses.defaultSubmitSignedTransactionResponse.engineResult =
      "tesSUCCESS" ∧
    FakeLegacyNetworkClientResponses.defaultSubmitSignedTransactionResponse.transactionBlob =
      "DEADBEEF" :=
  send_with_sequenced_defaults_succeeds succeedingSigner { address := "rSender" }
    { drops := "1" } "X" _ rfl

/-- Claim C3: during `send`, a fee response lacking its amount field, or an
account-info response lacking its sequence number, makes the operation fail
with the malformed-response error; the traces show that no assembly,
signing, or submission step runs afterwards (the trace stops at the failing
lookup). -/
theorem send_malformed_fee_or_sequence_rejects (client : XpringClient)
    (signTransaction : SignerFn) (sender : Wallet) (amount : XRPAmount)
    (destination : String) :
    (∀ fee : Fee,
      client.networkClient.getFee {} = Except.ok fee → fee.amount = none →
      XpringClient.sendTraced client signTransaction sender amount destination =
        (Except.error ⟨XpringClientErrorMessages.malformedResponse⟩,
         [Event.evGetFee])) ∧
    (∀ (fee : Fee) (feeAmount : XRPAmount) (accountInfo : AccountInfo),
      client.networkClient.getFee {} = Except.ok fee →
      fee.amount = some feeAmount →
      client.networkClient.getAccountInfo { address := sender.address } =
        Except.ok accountInfo →
      accountInfo.sequence = none →
      XpringClient.sendTraced client signTransaction sender amount destination =
        (Except.error ⟨XpringClientErrorMessages.malformedResponse⟩,
         [Event.evGetFee, Event.evGetAccountInfo sender.address])) := by
  constructor
  · intro fee hFee hAmount
    simp [XpringClient.sendTraced, XpringClient.getFee, hFee, hAmount]
  · intro fee feeAmount accountInfo hFee hAmount hAcct hSeq
    simp [XpringClient.sendTraced, XpringClient.getFee,
      XpringClient.getAccountInfo, hFee, hAmount, hAcct, hSeq]

/-- Witness for claim C3: against a fake whose fee response lacks its amount,
`send` stops after the fee lookup with the malformed-response error; against
the all-default fake (whose account info lacks a sequence), `send` stops
after the account-info lookup with the malformed-response error. -/
theorem send_malformed_fee_or_sequence_rejects_witness :
    XpringClient.sendTraced (xpringClientWithFake responsesWithEmptyFee)
        succeedingSigner { address := "rSender" } { drops := "1" } "X" =
      (Except.error ⟨XpringClientErrorMessages.malformedResponse⟩,
       [Event.evGetFee]) ∧
    XpringClient.sendTraced
        (xpringClientWithFake
          FakeLegacyNetworkClientResponses.defaultSuccessfulResponses)
        succeedingSigner { address := "rSender" } { drops := "1" } "X" =
      (Except.error ⟨XpringClientErrorMessages.malformedResponse⟩,
       [Event.evGetFee, Event.evGetAccountInfo "rSender"]) :=
  ⟨(send_malformed_fee_or_sequence_rejects _ succeedingSigner
      { address := "rSender" } { drops := "1" } "X").1 { amount := none } rfl rfl,
   (send_malformed_fee_or_sequence_rejects _ succeedingSigner
      { address := "rSender" } { drops := "1" } "X").2
     FakeLegacyNetworkClientResponses.defaultFeeResponse { drops := "10" }
     FakeLegacyNetworkClientResponses.defaultAccountInfoResponse rfl rfl rfl rfl⟩

/-- Claim C4: when the pipeline reaches the signing step, a signer that
throws makes `send` fail with a signing-failure error whose message contains
the thrown message (it is the fixed signing-failure text, a period and a
space, then the thrown message), and a signer that returns no result makes
`send` fail with the fixed signing-failure message. -/
theorem send_signing_failure_wraps_error (client : XpringClient)
    (signTransaction : SignerFn) (sender : Wallet) (amount : XRPAmount)
    (destination : String) (feeAmount : XRPAmount) (accountInfo : AccountInfo)
    (sequence : Nat) (hFee : client.getFee = Except.ok feeAmount)
    (hAcct : client.getAccountInfo sender.address = Except.ok accountInfo)
    (hSeq : accountInfo.sequence = some sequence) :
    (∀ msg : String,
      signTransaction
          (assembledTransaction sender feeAmount sequence amount destination)
          sender = SignerOutcome.threw msg →
      (XpringClient.sendTraced client signTransaction sender amount
          destination).1 =
        Except.error
          ⟨XpringClientErrorMessages.signingFailure ++ ". " ++ msg⟩ ∧
      ∃ pre post : String,
        XpringClientErrorMessages.signingFailure ++ ". " ++ msg =
          pre ++ msg ++ post) ∧
    (signTransaction
        (assembledTransaction sender feeAmount sequence amount destination)
        sender = SignerOutcome.returned none →
      (XpringClient.sendTraced client signTransaction sender amount
          destination).1 =
        Except.error ⟨XpringClientErrorMessages.signingFailure⟩) := by
  constructor
  · intro msg hSign
    constructor
    · simp [XpringClient.sendTraced, hFee, hAcct, hSeq, hSign]
    · exact ⟨XpringClientErrorMessages.signingFailure ++ ". ", "", by simp⟩
  · intro hSign
    simp [XpringClient.sendTraced, hFee, hAcct, hSeq, hSign]

/-- Witness for claim C4: against the sequence-bearing fake, a signer
throwing "sig boom" yields the wrapped signing-failure message, and a signer
returning no result yields the fixed signing-failure message. -/
theorem send_signing_failure_wraps_error_witness :
    (XpringClient.sendTraced (xpringClientWithFake responsesWithSequence)
        (constSigner (SignerOutcome.threw "sig boom")) { address := "rSender" }
        { drops := "1" } "X").1 =
      Except.error
        ⟨XpringClientErrorMessages.signingFailure ++ ". " ++ "sig boom"⟩ ∧
    (∃ pre post : String,
      XpringClientErrorMessages.signingFailure ++ ". " ++ "sig boom" =
        pre ++ "sig boom" ++ post) ∧
    (XpringClient.sendTraced (xpringClientWithFake responsesWithSequence)
        (constSigner (SignerOutcome.returned none)) { address := "rSender" }
        { drops := "1" } "X").1 =
      Except.error ⟨XpringClientErrorMessages.signingFailure⟩ := by
  refine ⟨?_, ?_, ?_⟩
  · exact ((send_signing_failure_wraps_error
      (xpringClientWithFake responsesWithSequence)
      (constSigner (SignerOutcome.threw "sig boom")) { address := "rSender" }
      { drops := "1" } "X" { drops := "10" }
      { balance := some { drops := "4000" }, sequence := some 12 } 12
      rfl rfl rfl).1 "sig boom" rfl).1
  · exact ((send_signing_failure_wraps_error
      (xpringClientWithFake responsesWithSequence)
      (constSigner (SignerOutcome.threw "sig boom")) { address := "rSender" }
      { drops := "1" } "X" { drops := "10" }
      { balance := some { drops := "4000" }, sequence := some 12 } 12
      rfl rfl rfl).1 "sig boom" rfl).2
  · exact (send_signing_failure_wraps_error
      (xpringClientWithFake responsesWithSequence)
      (constSigner (SignerOutcome.returned none)) { address := "rSender" }
      { drops := "1" } "X" { drops := "10" }
      { balance := some { drops := "4000" }, sequence := some 12 } 12
      rfl rfl rfl).2 rfl

/-- Claim C8: the send pipeline is fail-fast.  For every backend, signer and
input, the kinds of collaborator calls `send` makes form a prefix of the
canonical pipeline order (fee lookup, account-info lookup, signing,
submission) — so no step is retried and nothing runs after a failing step,
submission in particular is never invoked after an earlier failure — and
whenever submission is invoked, signing happened before it and the single
submission result (success or error) is exactly what `send` surfaces to the
caller, with no partial result. -/
theorem send_pipeline_fail_fast (client : XpringClient)
    (signTransaction : SignerFn) (sender : Wallet) (amount : XRPAmount)
    (destination : String) :
    (∃ rest : List EventKind,
      List.map eventKind
          (XpringClient.sendTraced client signTransaction sender amount
            destination).2 ++ rest =
        [EventKind.fee, EventKind.acct, EventKind.sign, EventKind.submit]) ∧
    (∀ request : SubmitSignedTransactionRequest,
      Event.evSubmit request ∈
          (XpringClient.sendTraced client signTransaction sender amount
            destination).2 →
      (∃ transaction, Event.evSign transaction ∈
          (XpringClient.sendTraced client signTransaction sender amount
            destination).2) ∧
      (XpringClient.sendTraced client signTransaction sender amount
          destination).1 =
        client.networkClient.submitSignedTransaction request) := by
  cases h1 : client.getFee with
  | error e =>
    refine ⟨⟨[EventKind.acct, EventKind.sign, EventKind.submit],
      by simp [XpringClient.sendTraced, h1, eventKind]⟩, ?_⟩
    intro request hmem
    simp [XpringClient.sendTraced, h1] at hmem
  | ok fee =>
    cases h2 : client.getAccountInfo sender.address with
    | error e =>
      refine ⟨⟨[EventKind.sign, EventKind.submit],
        by simp [XpringClient.sendTraced, h1, h2, eventKind]⟩, ?_⟩
      intro request hmem
      simp [XpringClient.sendTraced, h1, h2] at hmem
    | ok accountInfo =>
      cases h3 : accountInfo.sequence with
      | none =>
        refine ⟨⟨[EventKind.sign, EventKind.submit],
          by simp [XpringClient.sendTraced, h1, h2, h3, eventKind]⟩, ?_⟩
        intro request hmem
        simp [XpringClient.sendTraced, h1, h2, h3] at hmem
      | some sequence =>
        cases h4 : signTransaction
            (assembledTransaction sender fee sequence amount destination)
            sender with
        | threw msg =>
          refine ⟨⟨[EventKind.submit],
            by simp [XpringClient.sendTraced, h1, h2, h3, h4, eventKind]⟩, ?_⟩
          intro request hmem
          simp [XpringClient.sendTraced, h1, h2, h3, h4] at hmem
        | returned result =>
          cases result with
          | none =>
            refine ⟨⟨[EventKind.submit],
              by simp [XpringClient.sendTraced, h1, h2, h3, h4, eventKind]⟩, ?_⟩
            intro request hmem
            simp [XpringClient.sendTraced, h1, h2, h3, h4] at hmem
          | some signedTransaction =>
            refine ⟨⟨[],
              by simp [XpringClient.sendTraced, h1, h2, h3, h4, eventKind]⟩, ?_⟩
            intro request hmem
            simp [XpringClient.sendTraced, h1, h2, h3, h4] at hmem
            subst hmem
            constructor
            · exact ⟨assembledTransaction sender fee sequence amount destination,
                by simp [XpringClient.sendTraced, h1, h2, h3, h4]⟩
            · simp [XpringClient.sendTraced, h1, h2, h3, h4]

/-- Witness for claim C8: on a concrete all-success run that reaches
submission, signing indeed happened and the surfaced result is exactly the
backend submission result for the submitted request. -/
theorem send_pipeline_fail_fast_witness :
    (∃ transaction, Event.evSign transaction ∈
        (XpringClient.sendTraced (xpringClientWithFake responsesWithSequence)
          succeedingSigner { address := "rSender" } { drops := "1" } "X").2) ∧
    (XpringClient.sendTraced (xpringClientWithFake responsesWithSequence)
        succeedingSigner { address := "rSender" } { drops := "1" } "X").1 =
      (xpringClientWithFake responsesWithSequence).networkClient.submitSignedTransaction
        { signedTransaction := { transaction :=
          (assembledTransaction { address := "rSender" } { drops := "10" } 12
            { drops := "1" } "X") } } :=
  (send_pipeline_fail_fast (xpringClientWithFake responsesWithSequence)
    succeedingSigner { address := "rSender" } { drops := "1" } "X").2
    { signedTransaction := { transaction :=
      (assembledTransaction { address := "rSender" } { drops := "10" } 12
        { drops := "1" } "X") } } (by decide)

/-- Claim C9: in `DefaultXpringClient` a response field that is present but
zero is treated the same as an absent field: a fee response whose minimum
fee is 0 drops makes `getFee` fail with the malformed-response error
("Malformed Response."), and an account whose balance field is 0 (or absent)
makes `getBalance` fail the same way, even though zero is a legal
non-negative amount. -/
theorem default_client_falsy_fields_malformed
    (isValidXAddress : String → Bool) (client : DefaultXpringClient)
    (address : String) (getFeeResponse : GetFeeResponse) (fee : FeeDrops)
    (accountInfoResponse : GetAccountInfoResponse) (accountData : AccountData) :
    (client.networkClient.getFee {} = Except.ok getFeeResponse →
      getFeeResponse.drops = some fee → fee.minimumFee = some 0 →
      client.getFee =
        Except.error ⟨DefaultXpringClientErrorMessages.malformedResponse⟩) ∧
    (isValidXAddress address = true →
      client.networkClient.getAccountInfo { account := { address := address } } =
        Except.ok accountInfoResponse →
      accountInfoResponse.accountData = some accountData →
      accountData.balance = some 0 ∨ accountData.balance = none →
      (DefaultXpringClient.getBalance isValidXAddress client address).1 =
        Except.error ⟨DefaultXpringClientErrorMessages.malformedResponse⟩) := by
  constructor
  · intro hFee hDrops hMin
    simp [DefaultXpringClient.getFee, hFee, hDrops, hMin, jsFalsyNat]
  · intro hValid hAcct hData hBal
    cases hBal with
    | inl h =>
      simp [DefaultXpringClient.getBalance, hValid, hAcct, hData, h, jsFalsyNat]
    | inr h =>
      simp [DefaultXpringClient.getBalance, hValid, hAcct, hData, h, jsFalsyNat]

/-- Witness for claim C9: a backend whose fee response carries minimum fee 0
and whose account data carries balance 0 makes `getFee` and `getBalance`
fail with the malformed-response error. -/
theorem default_client_falsy_fields_malformed_witness :
    DefaultXpringClient.getFee
        { networkClient :=
            constRpcNetworkClient
              (Except.ok { accountData := some { balance := some 0 } })
              (Except.ok { drops := some { minimumFee := some 0 } }) } =
      Except.error ⟨DefaultXpringClientErrorMessages.malformedResponse⟩ ∧
    (DefaultXpringClient.getBalance (fun _ => true)
        { networkClient :=
            constRpcNetworkClient
              (Except.ok { accountData := some { balance := some 0 } })
              (Except.ok { drops := some { minimumFee := some 0 } }) }
        "X7cBcY4b").1 =
      Except.error ⟨DefaultXpringClientErrorMessages.malformedResponse⟩ :=
  ⟨(default_client_falsy_fields_malformed (fun _ => true)
      { networkClient :=
          constRpcNetworkClient
            (Except.ok { accountData := some { balance := some 0 } })
            (Except.ok { drops := some { minimumFee := some 0 } }) }
      "X7cBcY4b" { drops := some { minimumFee := some 0 } }
      { minimumFee := some 0 } { accountData := some { balance := some 0 } }
      { balance := some 0 }).1 rfl rfl rfl,
   (default_client_falsy_fields_malformed (fun _ => true)
      { networkClient :=
          constRpcNetworkClient
            (Except.ok { accountData := some { balance := some 0 } })
            (Except.ok { drops := some { minimumFee := some 0 } }) }
      "X7cBcY4b" { drops := some { minimumFee := some 0 } }
      { minimumFee := some 0 } { accountData := some { balance := some 0 } }
      { balance := some 0 }).2 rfl rfl rfl (Or.inl rfl)⟩
